import Mathlib

/-!
# wasm_runner.c : the `run_wasm` SQL function and the embedded `fib` module

A shallow embedding of `src/wasm_runner.c`.

* Part 1 embeds the function `$fib` of `FIB_WASM_SOURCE_EXAMPLE` (lines 9-48)
  as a function on 64-bit words.
* Part 2 embeds `run_wasm` (lines 50-131).  The SQLite and wasmtime libraries
  are not part of the repository; their entry points are the fields of a
  `Host` record, and the C library calls `abort` and `assert` are outcomes.
-/

namespace WasmRunner

/-! ## Part 1 : `$fib` of `FIB_WASM_SOURCE_EXAMPLE` -/

/-- `i64.const c` : the 64-bit word of the signed literal `c`. -/
def i64_const (c : Int) : Nat := (c % 2 ^ 64).toNat

/-- `i64.add` : addition of 64-bit words, wrapping. -/
def i64_add (a b : Nat) : Nat := (a + b) % 2 ^ 64

/-- `i64.lt_u` : unsigned less-than. -/
def i64_lt_u (a b : Nat) : Bool := decide (a < b)

/-- `i64.gt_u` : unsigned greater-than. -/
def i64_gt_u (a b : Nat) : Bool := decide (a > b)

mutual
/-- The function `$fib` (lines 12-42).  `l0` is the parameter (local 0); local 1
is the accumulator.  One unit of fuel is spent per call and per loop
iteration; `none` means the fuel ran out. -/
def fib : Nat → Nat → Option Nat
  | 0, _ => none
  | fuel + 1, l0 =>
    -- i64.const 0 ; local.set 1
    let l1 := i64_const 0
    -- block @1 : local.get 0 ; i64.const 2 ; i64.lt_u ; br_if 0
    if i64_lt_u l0 (i64_const 2) then
      -- local.get 0 ; local.get 1 ; i64.add
      some (i64_add l0 l1)
    else
      -- i64.const 0 ; local.set 1 ; loop @2
      match fib_loop fuel l0 (i64_const 0) with
      | none => none
      -- end ; end ; local.get 0 ; local.get 1 ; i64.add
      | some (l0, l1) => some (i64_add l0 l1)
/-- The body of `loop @2` (lines 23-38), on the locals `(l0, l1)`; returns the
locals at loop exit. -/
def fib_loop : Nat → Nat → Nat → Option (Nat × Nat)
  | 0, _, _ => none
  | fuel + 1, l0, l1 =>
    -- local.get 0 ; i64.const -1 ; i64.add ; call $fib
    match fib fuel (i64_add l0 (i64_const (-1))) with
    | none => none
    | some r =>
      -- local.get 1 ; i64.add ; local.set 1
      let l1 := i64_add r l1
      -- local.get 0 ; i64.const -2 ; i64.add ; local.tee 0
      let l0 := i64_add l0 (i64_const (-2))
      -- i64.const 1 ; i64.gt_u ; br_if 0
      if i64_gt_u l0 (i64_const 1) then fib_loop fuel l0 l1 else some (l0, l1)
end

/-- The Fibonacci numbers as the claim writes them: F(0)=0, F(1)=1,
F(n)=F(n-1)+F(n-2). -/
def fibSpec : Nat → Nat
  | 0 => 0
  | 1 => 1
  | n + 2 => fibSpec (n + 1) + fibSpec n

/-- The sum the loop accumulates when entered with local 0 equal to `n`:
F(n-1) + F(n-3) + ... down to the last index above 0 or 1. -/
def loopSum : Nat → Nat
  | 0 => 0
  | 1 => 0
  | n + 2 => fibSpec (n + 1) + loopSum n

/-! ## Part 2 : `run_wasm`

The C function is built with assertions enabled (the file defines no `NDEBUG`);
a failed `assert` and the call `abort()` both end the host process. -/

/-- The conversion of a 64-bit integer to C `int` : the low 32 bits, signed. -/
def to_int (v : Int) : Int := (v + 2 ^ 31) % 2 ^ 32 - 2 ^ 31

/-- A value handed over by SQLite (`sqlite3_value`), by its `sqlite3_value_type`.
An integer is 64-bit signed; a float is carried as its 64 bits. -/
inductive sqlite3_value where
  | SQLITE_INTEGER (v : Int)
  | SQLITE_FLOAT (d : Nat)
  | SQLITE_TEXT (s : String)
  | SQLITE_BLOB (b : List Nat)
  | SQLITE_NULL
  deriving DecidableEq, Repr

/-- The range of a 64-bit signed integer. -/
def is_int64 (v : Int) : Prop := -2 ^ 63 ≤ v ∧ v < 2 ^ 63

instance (v : Int) : Decidable (is_int64 v) := by unfold is_int64; infer_instance

/-- `sqlite3_value_int` on a value of type SQLITE_INTEGER holding `v` (the only
use, line 94): SQLite returns `(int)v`. -/
def sqlite3_value_int (v : Int) : Int := to_int v

/-- `sqlite3_value_double` on a value of type SQLITE_FLOAT (line 98): the
double itself. -/
def sqlite3_value_double (d : Nat) : Nat := d

/-- What the function leaves in the `sqlite3_context` for the caller: an error
message, or a value (SQL NULL when no `sqlite3_result_*` was called). -/
inductive sqlite3_result where
  | error (msg : String)
  | value (v : sqlite3_value)
  deriving DecidableEq, Repr

/-- A double is a NaN when its exponent is all ones and its fraction is not 0. -/
def is_nan (d : Nat) : Bool := decide ((d / 2 ^ 52) % 2 ^ 11 = 2047) && decide (d % 2 ^ 52 ≠ 0)

/-- `sqlite3_result_int(context, n)` : the result is the integer `n`. -/
def sqlite3_result_int (n : Int) : sqlite3_result := .value (.SQLITE_INTEGER n)

/-- `sqlite3_result_double(context, d)` : the result is the float `d`, and SQL
NULL when `d` is a NaN. -/
def sqlite3_result_double (d : Nat) : sqlite3_result :=
  if is_nan d then .value .SQLITE_NULL else .value (.SQLITE_FLOAT d)

/-- A `wasmtime_val_t` : the kind and the member of the union `of` that belongs
to it.  `other` stands for the kinds V128, FUNCREF and EXTERNREF. -/
inductive wasmtime_val_t where
  | WASMTIME_I32 (v : Int)
  | WASMTIME_I64 (v : Int)
  | WASMTIME_F32 (bits : Nat)
  | WASMTIME_F64 (bits : Nat)
  | other (kind : Nat)
  deriving DecidableEq, Repr

abbrev wasmtime_module_t := Nat
abbrev wasmtime_instance_t := Nat
abbrev wasmtime_func_t := Nat

/-- A `wasmtime_extern_t` : an export, by its kind. -/
inductive wasmtime_extern_t where
  | WASMTIME_EXTERN_FUNC (f : wasmtime_func_t)
  | WASMTIME_EXTERN_GLOBAL
  | WASMTIME_EXTERN_TABLE
  | WASMTIME_EXTERN_MEMORY
  deriving DecidableEq, Repr

/-- The three ways `wasmtime_func_call` with one result slot comes back: the
slot written, a trap, or an error (such as a signature mismatch). -/
inductive call_result where
  | ok (result : wasmtime_val_t)
  | trap (message : String)
  | error (message : String)
  deriving DecidableEq, Repr

/-- The libraries `run_wasm` calls, and the bytes found in `results[0]`, which
the function declares without initialising it (line 117). -/
structure Host where
  /-- The text of a value; `none` is the NULL pointer. -/
  sqlite3_value_text : sqlite3_value → Option String
  /-- The binary module, or the message of the error. -/
  wasmtime_wat2wasm : String → Except String (List Nat)
  /-- The compiled module; `none` when an error comes back and `module` stays NULL. -/
  wasmtime_module_new : List Nat → Option wasmtime_module_t
  /-- The instance; `none` when an error or a trap comes back. -/
  wasmtime_instance_new : wasmtime_module_t → Option wasmtime_instance_t
  /-- The export of that name; `none` when the call returns false. -/
  wasmtime_instance_export_get : wasmtime_instance_t → String → Option wasmtime_extern_t
  wasmtime_func_call : wasmtime_func_t → List wasmtime_val_t → call_result
  results_0 : wasmtime_val_t

/-- The calls that end the host process, by line. -/
inductive Fatal where
  /-- Line 71 : `abort()` after a failed `wasmtime_wat2wasm`. -/
  | abort_wat2wasm
  /-- Line 86 : `assert(ok)`. -/
  | assert_ok
  /-- Line 87 : `assert(func.kind == WASMTIME_EXTERN_FUNC)`. -/
  | assert_extern_func
  /-- Line 101 : `assert(!"not implemented yet")` under `case SQLITE_TEXT`. -/
  | assert_text
  /-- Line 106 : `assert(!"not implemented yet")` under `case SQLITE_BLOB`. -/
  | assert_blob
  /-- Line 128 : `assert(!"not implemented yet")` under `case WASMTIME_I32`. -/
  | assert_result_i32
  deriving DecidableEq, Repr

/-- How a call of `run_wasm` ends. -/
inductive Outcome where
  /-- The function returns to SQLite with this result in the context. -/
  | returned (r : sqlite3_result)
  /-- The host process is terminated. -/
  | aborted (at_ : Fatal)
  /-- The execution has undefined behaviour in C (a NULL or uninitialised object
  is used, or an array is read past its end); nothing is said about what follows. -/
  | undefined
  deriving DecidableEq, Repr

/-- The library calls of one run, in order. -/
inductive Event where
  | engine_new
  | store_new
  | wat2wasm (src : String)
  | stderr (text : String)
  | module_new (wasm : List Nat)
  | instance_new (mod : wasmtime_module_t)
  | export_get (name : String)
  | func_call (f : wasmtime_func_t) (params : List wasmtime_val_t)
  deriving DecidableEq, Repr

/-- One run of `run_wasm` : how it ends and what it called. -/
structure Run where
  outcome : Outcome
  trace : List Event
  deriving DecidableEq, Repr

/-- The message of line 53. -/
def arity_message : String :=
  "run_wasm function needs at least 2 parameters - the Wasm source code and the function name"

/-- The body of the `switch` of lines 91-114 for one argument. -/
def marshal_value : sqlite3_value → Except Fatal wasmtime_val_t
  | .SQLITE_INTEGER v => .ok (.WASMTIME_I64 (sqlite3_value_int v))
  | .SQLITE_FLOAT d => .ok (.WASMTIME_F64 (sqlite3_value_double d))
  | .SQLITE_TEXT _ => .error .assert_text
  | .SQLITE_BLOB _ => .error .assert_blob
  | .SQLITE_NULL => .ok (.WASMTIME_I32 0)

/-- The loop of lines 90-115 over `argv[2], argv[3], ...` : the array `params`,
or the assertion that stopped the loop. -/
def marshal_params : List sqlite3_value → Except Fatal (List wasmtime_val_t)
  | [] => .ok []
  | v :: rest =>
    match marshal_value v with
    | .error e => .error e
    | .ok p =>
      match marshal_params rest with
      | .error e => .error e
      | .ok ps => .ok (p :: ps)

/-- The `switch` of lines 120-130 on `results[0]`. -/
def marshal_result : wasmtime_val_t → Outcome
  | .WASMTIME_I64 v => .returned (sqlite3_result_int (to_int v))
  | .WASMTIME_F64 d => .returned (sqlite3_result_double d)
  | .WASMTIME_I32 _ => .aborted .assert_result_i32
  | _ => .returned (.value .SQLITE_NULL)

/-- The count `wasmtime_func_call` is given for `params` at line 118. -/
def nparams : Nat := 1

/-- Lines 57-130 of `run_wasm`, for `argv[0]`, `argv[1]` and the arguments after them. -/
def run_wasm_body (h : Host) (arg0 arg1 : sqlite3_value) (args : List sqlite3_value) : Run :=
  let t0 := [Event.engine_new, Event.store_new]
  -- line 65 : strlen(src)
  match h.sqlite3_value_text arg0 with
  | none => ⟨.undefined, t0⟩
  | some src =>
    let t1 := t0 ++ [Event.wat2wasm src]
    match h.wasmtime_wat2wasm src with
    | .error message => ⟨.aborted .abort_wat2wasm, t1 ++ [Event.stderr ("error: " ++ message ++ "\n")]⟩
    | .ok wasm =>
      let t2 := t1 ++ [Event.module_new wasm]
      match h.wasmtime_module_new wasm with
      | none => ⟨.undefined, t2⟩
      | some mod =>
        let t3 := t2 ++ [Event.instance_new mod]
        match h.wasmtime_instance_new mod with
        | none => ⟨.undefined, t3⟩
        | some inst =>
          -- line 85 : strlen(func_name)
          match h.sqlite3_value_text arg1 with
          | none => ⟨.undefined, t3⟩
          | some func_name =>
            let t4 := t3 ++ [Event.export_get func_name]
            match h.wasmtime_instance_export_get inst func_name with
            | none => ⟨.aborted .assert_ok, t4⟩
            | some (.WASMTIME_EXTERN_FUNC f) =>
              match marshal_params args with
              | .error e => ⟨.aborted e, t4⟩
              | .ok params =>
                -- line 118 reads params[0 .. nparams)
                if params.length < nparams then ⟨.undefined, t4⟩
                else
                  let passed := params.take nparams
                  let results_0 :=
                    match h.wasmtime_func_call f passed with
                    | .ok r => r
                    | .trap _ => h.results_0
                    | .error _ => h.results_0
                  ⟨marshal_result results_0, t4 ++ [Event.func_call f passed]⟩
            | some _ => ⟨.aborted .assert_extern_func, t4⟩

/-- The function `run_wasm` (lines 50-131); `argc` is the length of `argv`. -/
def run_wasm (h : Host) (argv : List sqlite3_value) : Run :=
  let argc := argv.length
  if argc < 2 then
    ⟨.returned (.error arity_message), []⟩
  else
    match argv with
    | arg0 :: arg1 :: args => run_wasm_body h arg0 arg1 args
    | _ => ⟨.undefined, []⟩

/-- The value is of type SQLITE_TEXT or SQLITE_BLOB. -/
def is_text_or_blob : sqlite3_value → Bool
  | .SQLITE_TEXT _ => true
  | .SQLITE_BLOB _ => true
  | _ => false

/-- The run gets as far as the marshalling loop with the function `f` in hand:
both texts are there, the source assembles, compiles and instantiates, and the
name is an export of kind function. -/
def ReachesMarshalling (h : Host) (arg0 arg1 : sqlite3_value) (f : wasmtime_func_t) : Prop :=
  ∃ src func_name wasm mod inst,
    h.sqlite3_value_text arg0 = some src ∧
    h.sqlite3_value_text arg1 = some func_name ∧
    h.wasmtime_wat2wasm src = .ok wasm ∧
    h.wasmtime_module_new wasm = some mod ∧
    h.wasmtime_instance_new mod = some inst ∧
    h.wasmtime_instance_export_get inst func_name = some (.WASMTIME_EXTERN_FUNC f)

/-- The source text the test runtime below assembles. -/
def TEST_WAT : String :=
  "(module (func (export \"run\") (param i64) (result i64) local.get 0) (memory (export \"memory\") 1))"

/-- A test runtime around one module, `TEST_WAT`, which exports the function
`run` and the memory `memory`.  What calling `run` does is the argument `call`,
and `junk` is what `results[0]` holds before the call.  Of `sqlite3_value_text`
only the text of a TEXT value is given; the other kinds read as NULL. -/
def testHost (call : List wasmtime_val_t → call_result) (junk : wasmtime_val_t) : Host where
  sqlite3_value_text := fun v =>
    match v with
    | .SQLITE_TEXT s => some s
    | _ => none
  wasmtime_wat2wasm := fun src =>
    if src = TEST_WAT then .ok [0, 97, 115, 109, 1, 0, 0, 0] else .error "expected a module field"
  wasmtime_module_new := fun _ => some 1
  wasmtime_instance_new := fun _ => some 1
  wasmtime_instance_export_get := fun _ name =>
    if name = "run" then some (.WASMTIME_EXTERN_FUNC 0)
    else if name = "memory" then some .WASMTIME_EXTERN_MEMORY
    else none
  wasmtime_func_call := fun _ params => call params
  results_0 := junk

/-- The export `run` of `TEST_WAT` as written: it returns its one i64 parameter;
any other parameter list is a signature mismatch. -/
def call_identity : List wasmtime_val_t → call_result
  | [.WASMTIME_I64 v] => .ok (.WASMTIME_I64 v)
  | _ => .error "type mismatch with parameters"

/-! ## Proofs : `$fib` -/

theorem i64_const_zero : i64_const 0 = 0 := by decide
theorem i64_const_one : i64_const 1 = 1 := by decide
theorem i64_const_two : i64_const 2 = 2 := by decide
theorem i64_const_neg_one : i64_const (-1) = 2 ^ 64 - 1 := by
  unfold i64_const; norm_num; rfl
theorem i64_const_neg_two : i64_const (-2) = 2 ^ 64 - 2 := by
  unfold i64_const; norm_num; rfl

theorem i64_add_neg_one (n : Nat) (h1 : 1 ≤ n) (h : n < 2 ^ 64) :
    i64_add n (i64_const (-1)) = n - 1 := by
  rw [i64_const_neg_one]; unfold i64_add; omega

theorem i64_add_neg_two (n : Nat) (h1 : 2 ≤ n) (h : n < 2 ^ 64) :
    i64_add n (i64_const (-2)) = n - 2 := by
  rw [i64_const_neg_two]; unfold i64_add; omega

theorem loopSum_add_parity : ∀ n, loopSum n + n % 2 = fibSpec n
  | 0 => by simp [loopSum, fibSpec]
  | 1 => by simp [loopSum, fibSpec]
  | n + 2 => by
    have ih := loopSum_add_parity n
    have : (n + 2) % 2 = n % 2 := by omega
    simp only [loopSum, fibSpec, this]
    omega

theorem fib_small (fuel n : Nat) (hn : n < 2) : fib (fuel + 1) n = some n := by
  have h64 : n < 18446744073709551616 := by omega
  simp [fib, i64_lt_u, i64_const_two, i64_const_zero, i64_add, hn, Nat.mod_eq_of_lt h64]

theorem fib_big (fuel n : Nat) (hn : 2 ≤ n) :
    fib (fuel + 1) n =
      (match fib_loop fuel n 0 with
       | none => none
       | some (l0, l1) => some (i64_add l0 l1)) := by
  have : ¬ n < 2 := by omega
  simp [fib, i64_lt_u, i64_const_two, i64_const_zero, this]

theorem fib_loop_step (fuel n l1 r : Nat) (h2 : 2 ≤ n) (h : n < 2 ^ 64)
    (hr : fib fuel (n - 1) = some r) :
    fib_loop (fuel + 1) n l1 =
      if 1 < n - 2 then fib_loop fuel (n - 2) (i64_add r l1)
      else some (n - 2, i64_add r l1) := by
  simp [fib_loop, i64_add_neg_one n (by omega) h, i64_add_neg_two n h2 h, hr,
    i64_gt_u, i64_const_one]

/-- Joint statement for `fib` and its loop, by strong induction on the 64-bit
argument: with fuel at least `2 n + 1` the function returns F(n) mod 2^64, and
with fuel at least `2 n` the loop entered at `n >= 2` leaves the parity of `n`
in local 0 and has added `loopSum n` to local 1. -/
theorem fib_and_loop (n : Nat) :
    n < 2 ^ 64 →
    (∀ fuel, 2 * n + 1 ≤ fuel → fib fuel n = some (fibSpec n % 2 ^ 64)) ∧
    (2 ≤ n → ∀ fuel l1, 2 * n ≤ fuel →
        fib_loop fuel n l1 = some (n % 2, (l1 + loopSum n) % 2 ^ 64)) := by
  induction n using Nat.strong_induction_on with
  | _ n ih =>
    intro hlt
    have hloop : 2 ≤ n → ∀ fuel l1, 2 * n ≤ fuel →
        fib_loop fuel n l1 = some (n % 2, (l1 + loopSum n) % 2 ^ 64) := by
      intro h2 fuel l1 hf
      obtain ⟨f, rfl⟩ : ∃ f, fuel = f + 1 := ⟨fuel - 1, by omega⟩
      have hcall := (ih (n - 1) (by omega) (by omega)).1 f (by omega)
      rw [fib_loop_step f n l1 _ h2 hlt hcall]
      obtain ⟨m, rfl⟩ : ∃ m, n = m + 2 := ⟨n - 2, by omega⟩
      have hsum : loopSum (m + 2) = fibSpec (m + 1) + loopSum m := by simp [loopSum]
      have hpred : m + 2 - 1 = m + 1 := rfl
      simp only [Nat.add_sub_cancel, hsum, hpred]
      by_cases hm : 1 < m
      · rw [if_pos hm]
        rw [(ih m (by omega) (by omega)).2 (by omega) f _ (by omega)]
        have : (m + 2) % 2 = m % 2 := by omega
        rw [this]
        unfold i64_add
        congr 2
        omega
      · rw [if_neg hm]
        have hm2 : (m + 2) % 2 = m := by omega
        have hz : loopSum m = 0 := by
          rcases (by omega : m = 0 ∨ m = 1) with rfl | rfl <;> simp [loopSum]
        rw [hm2, hz]
        unfold i64_add
        congr 2
        omega
    refine ⟨?_, hloop⟩
    intro fuel hf
    obtain ⟨f, rfl⟩ : ∃ f, fuel = f + 1 := ⟨fuel - 1, by omega⟩
    by_cases h2 : n < 2
    · rw [fib_small f n h2]
      have : fibSpec n = n := by
        rcases (by omega : n = 0 ∨ n = 1) with rfl | rfl <;> simp [fibSpec]
      rw [this]
      congr 1
      omega
    · rw [fib_big f n (by omega), hloop (by omega) f 0 (by omega)]
      simp only
      unfold i64_add
      rw [← loopSum_add_parity n]
      congr 1
      omega

/-- C10 : read on 64-bit words, `$fib` terminates on every input `n` (any fuel
from `2 n + 1` on suffices) and returns the n-th Fibonacci number modulo 2^64;
its loop, entered at `n >= 2`, sums F(n-1), F(n-3), ... into local 1 and leaves
the leftover 0 or 1 in local 0; the demo rows 1..5 give 1, 1, 2, 3, 5. -/
theorem fib_correct :
    (∀ n fuel, n < 2 ^ 64 → 2 * n + 1 ≤ fuel → fib fuel n = some (fibSpec n % 2 ^ 64)) ∧
    (∀ n fuel l1, 2 ≤ n → n < 2 ^ 64 → 2 * n ≤ fuel →
        fib_loop fuel n l1 = some (n % 2, (l1 + loopSum n) % 2 ^ 64)) ∧
    (∀ n, loopSum n + n % 2 = fibSpec n) ∧
    fib 3 1 = some 1 ∧ fib 5 2 = some 1 ∧ fib 7 3 = some 2 ∧
    fib 9 4 = some 3 ∧ fib 11 5 = some 5 :=
  ⟨fun n fuel hn hf => (fib_and_loop n hn).1 fuel hf,
   fun n fuel l1 h2 hn hf => (fib_and_loop n hn).2 h2 fuel l1 hf,
   loopSum_add_parity, by decide, by decide, by decide, by decide, by decide⟩

/-- Witness of `fib_correct` at the input 10 with fuel 21 : the result is 55. -/
theorem fib_correct_witness :
    (10 < 2 ^ 64 ∧ 2 * 10 + 1 ≤ 21) ∧ fib 21 10 = some (fibSpec 10 % 2 ^ 64) :=
  ⟨by decide, fib_correct.1 10 21 (by decide) (by decide)⟩


/-! ## Proofs : `run_wasm` -/

theorem to_int_of_int32 (v : Int) (hlo : -2 ^ 31 ≤ v) (hhi : v < 2 ^ 31) : to_int v = v := by
  unfold to_int; omega

theorem to_int_range (v : Int) : -2 ^ 31 ≤ to_int v ∧ to_int v < 2 ^ 31 := by
  unfold to_int; omega

/-- A TEXT or BLOB value among the arguments stops the loop at an assertion. -/
theorem marshal_params_text_or_blob :
    ∀ (args : List sqlite3_value), (∃ v ∈ args, is_text_or_blob v = true) →
      marshal_params args = .error .assert_text ∨ marshal_params args = .error .assert_blob
  | [], hex => by simp at hex
  | a :: rest, hex => by
    unfold marshal_params
    cases a with
    | SQLITE_TEXT s => simp [marshal_value]
    | SQLITE_BLOB b => simp [marshal_value]
    | SQLITE_INTEGER v =>
      have hrest : ∃ v ∈ rest, is_text_or_blob v = true := by
        simpa [is_text_or_blob] using hex
      rcases marshal_params_text_or_blob rest hrest with h | h <;> simp [marshal_value, h]
    | SQLITE_FLOAT d =>
      have hrest : ∃ v ∈ rest, is_text_or_blob v = true := by
        simpa [is_text_or_blob] using hex
      rcases marshal_params_text_or_blob rest hrest with h | h <;> simp [marshal_value, h]
    | SQLITE_NULL =>
      have hrest : ∃ v ∈ rest, is_text_or_blob v = true := by
        simpa [is_text_or_blob] using hex
      rcases marshal_params_text_or_blob rest hrest with h | h <;> simp [marshal_value, h]

/-- The result switch never sets an error. -/
theorem marshal_result_ne_error (r : wasmtime_val_t) (msg : String) :
    marshal_result r ≠ .returned (.error msg) := by
  cases r <;> simp [marshal_result, sqlite3_result_int, sqlite3_result_double]
  split <;> simp

/-- The run from the marshalling loop on, once the function is in hand. -/
theorem run_wasm_of_reaches (h : Host) (arg0 arg1 : sqlite3_value) (args : List sqlite3_value)
    (f : wasmtime_func_t) (hr : ReachesMarshalling h arg0 arg1 f) :
    ∃ t4 : List Event, (∀ g ps, Event.func_call g ps ∉ t4) ∧
      run_wasm h (arg0 :: arg1 :: args) =
        (match marshal_params args with
         | .error e => ⟨.aborted e, t4⟩
         | .ok params =>
           if params.length < nparams then ⟨.undefined, t4⟩
           else
             ⟨marshal_result
                (match h.wasmtime_func_call f (params.take nparams) with
                 | .ok r => r
                 | .trap _ => h.results_0
                 | .error _ => h.results_0),
              t4 ++ [Event.func_call f (params.take nparams)]⟩) := by
  obtain ⟨src, func_name, wasm, mod, inst, h0, h1, h2, h3, h4, h5⟩ := hr
  refine ⟨[Event.engine_new, Event.store_new, Event.wat2wasm src, Event.module_new wasm,
    Event.instance_new mod, Event.export_get func_name], by simp, ?_⟩
  simp only [run_wasm, run_wasm_body, h0, h1, h2, h3, h4, h5]
  simp

/-! ## The claims -/

/-- C1 : a call with 0 or 1 arguments, whatever they are and whatever the host,
returns the arity error to the caller, and no library call is made: no
assembly, no module creation, no instantiation. -/
theorem run_wasm_arity_error (h : Host) (argv : List sqlite3_value)
    (hargc : argv.length < 2) :
    run_wasm h argv = ⟨.returned (.error arity_message), []⟩ := by
  simp [run_wasm, hargc]

/-- Witness of `run_wasm_arity_error` : a call with the source alone. -/
theorem run_wasm_arity_error_witness :
    [sqlite3_value.SQLITE_TEXT TEST_WAT].length < 2 ∧
    run_wasm (testHost call_identity (.other 0)) [.SQLITE_TEXT TEST_WAT] =
      ⟨.returned (.error arity_message), []⟩ :=
  ⟨by decide, run_wasm_arity_error _ _ (by decide)⟩

/-- C2, the code at the failing input : an INTEGER argument `v` is emitted as
the I64 of `(int)v`, its low 32 bits; the 64-bit integer 2147483648 comes out as
the I64 -2147483648. -/
theorem marshal_integer_keeps_low_32_bits :
    (∀ v, marshal_value (.SQLITE_INTEGER v) = .ok (.WASMTIME_I64 (to_int v))) ∧
    is_int64 2147483648 ∧
    marshal_params [.SQLITE_INTEGER 2147483648] = .ok [.WASMTIME_I64 (-2147483648)] :=
  ⟨fun _ => rfl, by decide, by rfl⟩

/-- C3 as stated fails : with a TEXT argument after the first two, the run ends
at the assertion of line 101 and the caller gets no error back. -/
theorem text_argument_is_not_reported :
    (run_wasm (testHost call_identity (.other 0))
        [.SQLITE_TEXT TEST_WAT, .SQLITE_TEXT "run", .SQLITE_TEXT "abc"]).outcome
      = .aborted .assert_text ∧
    ¬ ∃ msg, (run_wasm (testHost call_identity (.other 0))
        [.SQLITE_TEXT TEST_WAT, .SQLITE_TEXT "run", .SQLITE_TEXT "abc"]).outcome
      = .returned (.error msg) := by
  constructor
  · decide
  · rintro ⟨msg, hmsg⟩
    have hrun : (run_wasm (testHost call_identity (.other 0))
        [.SQLITE_TEXT TEST_WAT, .SQLITE_TEXT "run", .SQLITE_TEXT "abc"]).outcome
          = .aborted .assert_text := by decide
    rw [hrun] at hmsg
    cases hmsg

/-- C3 amended : when the source assembles, compiles and instantiates and the
name is an exported function, a TEXT or BLOB value among the arguments after
the first two ends the run at the assertion "not implemented yet" of its case
(line 101 or 106), the host process is terminated, and the export is not called. -/
theorem text_or_blob_argument_aborts (h : Host) (arg0 arg1 : sqlite3_value)
    (args : List sqlite3_value) (f : wasmtime_func_t)
    (hr : ReachesMarshalling h arg0 arg1 f)
    (ht : ∃ v ∈ args, is_text_or_blob v = true) :
    ((run_wasm h (arg0 :: arg1 :: args)).outcome = .aborted .assert_text ∨
      (run_wasm h (arg0 :: arg1 :: args)).outcome = .aborted .assert_blob) ∧
    ∀ g ps, Event.func_call g ps ∉ (run_wasm h (arg0 :: arg1 :: args)).trace := by
  obtain ⟨t4, ht4, hrun⟩ := run_wasm_of_reaches h arg0 arg1 args f hr
  rw [hrun]
  rcases marshal_params_text_or_blob args ht with hm | hm <;> simp [hm, ht4]

/-- Witness of `text_or_blob_argument_aborts` : a BLOB as second marshalled argument. -/
theorem text_or_blob_argument_aborts_witness :
    (ReachesMarshalling (testHost call_identity (.other 0))
        (.SQLITE_TEXT TEST_WAT) (.SQLITE_TEXT "run") 0 ∧
      ∃ v ∈ [sqlite3_value.SQLITE_INTEGER 1, .SQLITE_BLOB [1, 2]], is_text_or_blob v = true) ∧
    (((run_wasm (testHost call_identity (.other 0))
        [.SQLITE_TEXT TEST_WAT, .SQLITE_TEXT "run", .SQLITE_INTEGER 1, .SQLITE_BLOB [1, 2]]).outcome
          = .aborted .assert_text ∨
      (run_wasm (testHost call_identity (.other 0))
        [.SQLITE_TEXT TEST_WAT, .SQLITE_TEXT "run", .SQLITE_INTEGER 1, .SQLITE_BLOB [1, 2]]).outcome
          = .aborted .assert_blob) ∧
    ∀ g ps, Event.func_call g ps ∉ (run_wasm (testHost call_identity (.other 0))
        [.SQLITE_TEXT TEST_WAT, .SQLITE_TEXT "run", .SQLITE_INTEGER 1, .SQLITE_BLOB [1, 2]]).trace) :=
  have hr : ReachesMarshalling (testHost call_identity (.other 0))
      (.SQLITE_TEXT TEST_WAT) (.SQLITE_TEXT "run") 0 :=
    ⟨TEST_WAT, "run", [0, 97, 115, 109, 1, 0, 0, 0], 1, 1, rfl, rfl, by rfl, rfl, rfl, by rfl⟩
  have ht : ∃ v ∈ [sqlite3_value.SQLITE_INTEGER 1, .SQLITE_BLOB [1, 2]],
      is_text_or_blob v = true := ⟨.SQLITE_BLOB [1, 2], by simp, rfl⟩
  ⟨⟨hr, ht⟩, text_or_blob_argument_aborts _ _ _ _ 0 hr ht⟩

/-- C4, the code at the failing input : with four arguments the loop fills two
parameters, I64 1 and I64 2, and the export is called with the first alone; with
two arguments the call reads `params[0]` of an array of length 0. -/
theorem call_receives_one_parameter :
    marshal_params [.SQLITE_INTEGER 1, .SQLITE_INTEGER 2]
      = .ok [.WASMTIME_I64 1, .WASMTIME_I64 2] ∧
    (run_wasm (testHost call_identity (.other 0))
        [.SQLITE_TEXT TEST_WAT, .SQLITE_TEXT "run", .SQLITE_INTEGER 1, .SQLITE_INTEGER 2]).trace
      = [.engine_new, .store_new, .wat2wasm TEST_WAT, .module_new [0, 97, 115, 109, 1, 0, 0, 0],
         .instance_new 1, .export_get "run", .func_call 0 [.WASMTIME_I64 1]] ∧
    (run_wasm (testHost call_identity (.other 0))
        [.SQLITE_TEXT TEST_WAT, .SQLITE_TEXT "run"]).outcome = .undefined :=
  ⟨by rfl, by decide, by decide⟩

/-- C5, the code at the failing input : through an export that returns its i64
argument unchanged, the 64-bit integer 2147483648 comes back as -2147483648. -/
theorem round_trip_fails_beyond_int :
    is_int64 2147483648 ∧
    call_identity [.WASMTIME_I64 (-2147483648)] = .ok (.WASMTIME_I64 (-2147483648)) ∧
    (run_wasm (testHost call_identity (.other 0))
        [.SQLITE_TEXT TEST_WAT, .SQLITE_TEXT "run", .SQLITE_INTEGER 2147483648]).outcome
      = .returned (.value (.SQLITE_INTEGER (-2147483648))) :=
  ⟨by decide, rfl, by decide⟩

/-- C6, the code at the failing input : the export traps when it is called
(or, called with a FLOAT, reports a signature mismatch); line 118 stores the
error and the trap and nothing reads them, so whatever `results[0]` holds, the
call is made and no error, hence no trap message, is returned to the caller. -/
theorem trap_is_never_reported :
    (∀ junk, (run_wasm (testHost (fun _ => .trap "wasm trap: unreachable") junk)
        [.SQLITE_TEXT TEST_WAT, .SQLITE_TEXT "run", .SQLITE_INTEGER 5]).trace
      = [.engine_new, .store_new, .wat2wasm TEST_WAT, .module_new [0, 97, 115, 109, 1, 0, 0, 0],
         .instance_new 1, .export_get "run", .func_call 0 [.WASMTIME_I64 5]]) ∧
    (∀ junk msg, (run_wasm (testHost (fun _ => .trap "wasm trap: unreachable") junk)
        [.SQLITE_TEXT TEST_WAT, .SQLITE_TEXT "run", .SQLITE_INTEGER 5]).outcome
      ≠ .returned (.error msg)) ∧
    call_identity [.WASMTIME_F64 0] = .error "type mismatch with parameters" ∧
    (∀ junk msg, (run_wasm (testHost call_identity junk)
        [.SQLITE_TEXT TEST_WAT, .SQLITE_TEXT "run", .SQLITE_FLOAT 0]).outcome
      ≠ .returned (.error msg)) := by
  refine ⟨fun junk => by rfl, ?_, rfl, ?_⟩
  · intro junk msg
    have hout : (run_wasm (testHost (fun _ => .trap "wasm trap: unreachable") junk)
        [.SQLITE_TEXT TEST_WAT, .SQLITE_TEXT "run", .SQLITE_INTEGER 5]).outcome
          = marshal_result junk := by rfl
    rw [hout]
    exact marshal_result_ne_error junk msg
  · intro junk msg
    have hout : (run_wasm (testHost call_identity junk)
        [.SQLITE_TEXT TEST_WAT, .SQLITE_TEXT "run", .SQLITE_FLOAT 0]).outcome
          = marshal_result junk := by rfl
    rw [hout]
    exact marshal_result_ne_error junk msg

/-- C7 as stated fails : the export returns an I32 and the run ends at the
assertion of line 128; the caller gets no error back. -/
theorem i32_result_is_not_reported :
    (run_wasm (testHost (fun _ => .ok (.WASMTIME_I32 1)) (.other 0))
        [.SQLITE_TEXT TEST_WAT, .SQLITE_TEXT "run", .SQLITE_INTEGER 5]).outcome
      = .aborted .assert_result_i32 := by
  decide

/-- C7 amended : when the call succeeds with a result of kind I32, the run ends
at the assertion "not implemented yet" of line 128 and the host process is
terminated. -/
theorem i32_result_aborts (h : Host) (arg0 arg1 : sqlite3_value)
    (args : List sqlite3_value) (f : wasmtime_func_t) (params : List wasmtime_val_t)
    (v : Int)
    (hr : ReachesMarshalling h arg0 arg1 f)
    (hm : marshal_params args = .ok params)
    (hlen : nparams ≤ params.length)
    (hc : h.wasmtime_func_call f (params.take nparams) = .ok (.WASMTIME_I32 v)) :
    (run_wasm h (arg0 :: arg1 :: args)).outcome = .aborted .assert_result_i32 := by
  obtain ⟨t4, _, hrun⟩ := run_wasm_of_reaches h arg0 arg1 args f hr
  have hnot : ¬ params.length < nparams := by omega
  rw [hrun]
  simp [hm, hnot, hc, marshal_result]

/-- Witness of `i32_result_aborts` : an export that returns the I32 42. -/
theorem i32_result_aborts_witness :
    (ReachesMarshalling (testHost (fun _ => .ok (.WASMTIME_I32 42)) (.other 0))
        (.SQLITE_TEXT TEST_WAT) (.SQLITE_TEXT "run") 0 ∧
      marshal_params [.SQLITE_NULL] = .ok [.WASMTIME_I32 0] ∧
      nparams ≤ [wasmtime_val_t.WASMTIME_I32 0].length) ∧
    (run_wasm (testHost (fun _ => .ok (.WASMTIME_I32 42)) (.other 0))
        [.SQLITE_TEXT TEST_WAT, .SQLITE_TEXT "run", .SQLITE_NULL]).outcome
      = .aborted .assert_result_i32 :=
  have hr : ReachesMarshalling (testHost (fun _ => .ok (.WASMTIME_I32 42)) (.other 0))
      (.SQLITE_TEXT TEST_WAT) (.SQLITE_TEXT "run") 0 :=
    ⟨TEST_WAT, "run", [0, 97, 115, 109, 1, 0, 0, 0], 1, 1, rfl, rfl, by rfl, rfl, rfl, by rfl⟩
  have hm : marshal_params [.SQLITE_NULL] = .ok [.WASMTIME_I32 0] := by rfl
  have hlen : nparams ≤ [wasmtime_val_t.WASMTIME_I32 0].length := by decide
  ⟨⟨hr, hm, hlen⟩, i32_result_aborts _ _ _ _ 0 _ 42 hr hm hlen rfl⟩

/-- C8 as stated fails : a source that does not assemble ends the run at
`abort()`, a name that is not exported at `assert(ok)`, and the exported memory
at `assert(func.kind == WASMTIME_EXTERN_FUNC)`; none returns to the caller. -/
theorem load_and_lookup_failures_are_fatal :
    (run_wasm (testHost call_identity (.other 0))
        [.SQLITE_TEXT "(", .SQLITE_TEXT "run", .SQLITE_INTEGER 5]).outcome
      = .aborted .abort_wat2wasm ∧
    (run_wasm (testHost call_identity (.other 0))
        [.SQLITE_TEXT TEST_WAT, .SQLITE_TEXT "missing", .SQLITE_INTEGER 5]).outcome
      = .aborted .assert_ok ∧
    (run_wasm (testHost call_identity (.other 0))
        [.SQLITE_TEXT TEST_WAT, .SQLITE_TEXT "memory", .SQLITE_INTEGER 5]).outcome
      = .aborted .assert_extern_func :=
  ⟨by decide, by decide, by decide⟩

/-- C8 amended : for a call with at least two arguments whose first reads as the
text `src`: when `src` does not assemble, the message is written to stderr and
the run ends at `abort()` (line 71) before any module is created; when it
assembles, compiles and instantiates, a name that is not exported ends the run
at `assert(ok)` (line 86) and an export that is not a function at
`assert(func.kind == WASMTIME_EXTERN_FUNC)` (line 87).  In the three cases the
host process is terminated and the export is not called. -/
theorem load_and_lookup_failures_abort (h : Host) (arg0 arg1 : sqlite3_value)
    (args : List sqlite3_value) (src : String)
    (hsrc : h.sqlite3_value_text arg0 = some src) :
    (∀ message, h.wasmtime_wat2wasm src = .error message →
        run_wasm h (arg0 :: arg1 :: args) =
          ⟨.aborted .abort_wat2wasm,
           [.engine_new, .store_new, .wat2wasm src, .stderr ("error: " ++ message ++ "\n")]⟩) ∧
    (∀ func_name wasm mod inst,
        h.sqlite3_value_text arg1 = some func_name →
        h.wasmtime_wat2wasm src = .ok wasm →
        h.wasmtime_module_new wasm = some mod →
        h.wasmtime_instance_new mod = some inst →
        (h.wasmtime_instance_export_get inst func_name = none →
          run_wasm h (arg0 :: arg1 :: args) =
            ⟨.aborted .assert_ok,
             [.engine_new, .store_new, .wat2wasm src, .module_new wasm, .instance_new mod,
              .export_get func_name]⟩) ∧
        (∀ e, h.wasmtime_instance_export_get inst func_name = some e →
          (∀ f, e ≠ .WASMTIME_EXTERN_FUNC f) →
          run_wasm h (arg0 :: arg1 :: args) =
            ⟨.aborted .assert_extern_func,
             [.engine_new, .store_new, .wat2wasm src, .module_new wasm, .instance_new mod,
              .export_get func_name]⟩)) := by
  refine ⟨?_, ?_⟩
  · intro message hw
    simp [run_wasm, run_wasm_body, hsrc, hw]
  · intro func_name wasm mod inst hname hw hmod hinst
    refine ⟨?_, ?_⟩
    · intro hget
      simp [run_wasm, run_wasm_body, hsrc, hw, hmod, hinst, hname, hget]
    · intro e hget hkind
      cases e with
      | WASMTIME_EXTERN_FUNC f => exact absurd rfl (hkind f)
      | WASMTIME_EXTERN_GLOBAL =>
        simp [run_wasm, run_wasm_body, hsrc, hw, hmod, hinst, hname, hget]
      | WASMTIME_EXTERN_TABLE =>
        simp [run_wasm, run_wasm_body, hsrc, hw, hmod, hinst, hname, hget]
      | WASMTIME_EXTERN_MEMORY =>
        simp [run_wasm, run_wasm_body, hsrc, hw, hmod, hinst, hname, hget]

/-- Witness of `load_and_lookup_failures_abort` : the source "(", which does
not assemble, and the names "missing" and "memory" on `TEST_WAT`. -/
theorem load_and_lookup_failures_abort_witness :
    ((testHost call_identity (.other 0)).sqlite3_value_text (.SQLITE_TEXT "(") = some "(" ∧
      (testHost call_identity (.other 0)).sqlite3_value_text (.SQLITE_TEXT TEST_WAT)
        = some TEST_WAT) ∧
    run_wasm (testHost call_identity (.other 0)) [.SQLITE_TEXT "(", .SQLITE_TEXT "run"] =
      ⟨.aborted .abort_wat2wasm,
       [.engine_new, .store_new, .wat2wasm "(",
        .stderr ("error: " ++ "expected a module field" ++ "\n")]⟩ ∧
    run_wasm (testHost call_identity (.other 0))
        [.SQLITE_TEXT TEST_WAT, .SQLITE_TEXT "missing", .SQLITE_FLOAT 0] =
      ⟨.aborted .assert_ok,
       [.engine_new, .store_new, .wat2wasm TEST_WAT, .module_new [0, 97, 115, 109, 1, 0, 0, 0],
        .instance_new 1, .export_get "missing"]⟩ ∧
    run_wasm (testHost call_identity (.other 0))
        [.SQLITE_TEXT TEST_WAT, .SQLITE_TEXT "memory", .SQLITE_FLOAT 0] =
      ⟨.aborted .assert_extern_func,
       [.engine_new, .store_new, .wat2wasm TEST_WAT, .module_new [0, 97, 115, 109, 1, 0, 0, 0],
        .instance_new 1, .export_get "memory"]⟩ :=
  ⟨⟨rfl, rfl⟩,
   (load_and_lookup_failures_abort (testHost call_identity (.other 0))
      (.SQLITE_TEXT "(") (.SQLITE_TEXT "run") [] "(" rfl).1 "expected a module field" (by rfl),
   ((load_and_lookup_failures_abort (testHost call_identity (.other 0))
      (.SQLITE_TEXT TEST_WAT) (.SQLITE_TEXT "missing") [.SQLITE_FLOAT 0] TEST_WAT rfl).2
        "missing" [0, 97, 115, 109, 1, 0, 0, 0] 1 1 rfl (by rfl) rfl rfl).1 (by rfl),
   ((load_and_lookup_failures_abort (testHost call_identity (.other 0))
      (.SQLITE_TEXT TEST_WAT) (.SQLITE_TEXT "memory") [.SQLITE_FLOAT 0] TEST_WAT rfl).2
        "memory" [0, 97, 115, 109, 1, 0, 0, 0] 1 1 rfl (by rfl) rfl rfl).2
        .WASMTIME_EXTERN_MEMORY (by rfl) (fun _ hf => by cases hf)⟩

/-- Within the range of C `int` the round trip through an export that returns
its i64 argument holds. -/
theorem round_trip_within_int (h : Host) (arg0 arg1 : sqlite3_value) (f : wasmtime_func_t)
    (v : Int) (hr : ReachesMarshalling h arg0 arg1 f)
    (hlo : -2 ^ 31 ≤ v) (hhi : v < 2 ^ 31)
    (hid : h.wasmtime_func_call f [.WASMTIME_I64 v] = .ok (.WASMTIME_I64 v)) :
    (run_wasm h [arg0, arg1, .SQLITE_INTEGER v]).outcome
      = .returned (.value (.SQLITE_INTEGER v)) := by
  obtain ⟨t4, _, hrun⟩ := run_wasm_of_reaches h arg0 arg1 [.SQLITE_INTEGER v] f hr
  rw [hrun]
  simp [marshal_params, marshal_value, sqlite3_value_int, to_int_of_int32 v hlo hhi, nparams,
    hid, marshal_result, sqlite3_result_int]

/-- A result of kind F32 matches no case of the switch of lines 120-130: the
function returns without a result, which SQLite reads as NULL. -/
theorem f32_result_returns_null (bits : Nat) :
    marshal_result (.WASMTIME_F32 bits) = .returned (.value .SQLITE_NULL) := rfl

end WasmRunner
